import Mathlib

/-
Verification development for the setsuna-bff gateway (src/index.js, with the
near-duplicate revision src/unnamed/part_000).  The resolver dispatch core is
embedded shallowly: each GraphQL resolver becomes a Lean function from its
arguments, the inbound request context and a backend oracle to the list of
outbound backend calls it issues together with its result
(`Except errMessage clientValue`); the publish/subscribe broker becomes
explicit state passing over a `BrokerState`.
-/

namespace SetsunaBff

/-- JSON-ish values, the shape of backend response bodies (`response.data`)
and of outbound request payloads. -/
inductive Json where
  | null : Json
  | bool (b : Bool) : Json
  | num (n : Int) : Json
  | str (s : String) : Json
  | arr (elems : List Json) : Json
  | obj (fields : List (String × Json)) : Json

mutual

/-- JavaScript string coercion `String(v)` of a defined value, as used by a
template literal.  Objects render as "[object Object]"; arrays join their
elements with commas (a null element joins as the empty string). -/
def jsToString : Json → String
  | Json.null => "null"
  | Json.bool true => "true"
  | Json.bool false => "false"
  | Json.num n => toString n
  | Json.str s => s
  | Json.arr elems => String.intercalate "," (jsArrayElems elems)
  | Json.obj _ => "[object Object]"

/-- Rendering of the elements of a JavaScript array for `Array.toString`:
null elements become the empty string, others go through `jsToString`. -/
def jsArrayElems : List Json → List String
  | [] => []
  | Json.null :: js => "" :: jsArrayElems js
  | j :: js => jsToString j :: jsArrayElems js

end

/-- JavaScript template-literal interpolation of a possibly-undefined value:
an undefined value (`none`) renders as the literal string "undefined". -/
def jsTemplate : Option Json → String
  | none => "undefined"
  | some j => jsToString j

/-- JavaScript property access `v[k]` followed by use under optional
chaining: yields `none` ("undefined") on null, on primitives, and on objects
lacking the key. -/
def jsGetOpt (j : Json) (k : String) : Option Json :=
  match j with
  | Json.obj fields => (fields.find? (fun p => p.1 == k)).map (fun p => p.2)
  | _ => none

/-- The `response` carried by an axios error: present when the backend
answered with an HTTP error status, absent for transport-level failures. -/
structure AxiosResponse where
  data : Json

/-- An axios failure value as caught by the resolvers' catch blocks. -/
structure AxiosError where
  response : Option AxiosResponse

/-- The optional-chaining read `error.response?.data?.reason` performed by
`errorHandler` in src/index.js (identical in src/unnamed/part_000). -/
def reasonOf (e : AxiosError) : Option Json :=
  (e.response.map AxiosResponse.data).bind (fun d => jsGetOpt d "reason")

/-- errorHandler from src/index.js lines 23-26 (identical in
src/unnamed/part_000): the message of the Error it throws, namely the
template rendering of `error.response?.data?.reason`. -/
def errorHandler (e : AxiosError) : String :=
  jsTemplate (reasonOf e)

/-- errorHandler as the resolvers use it: it never returns a value, it
always throws, so every call site ends in an error result whose message is
`errorHandler e`. -/
def errorHandlerThrow {α : Type} (e : AxiosError) : Except String α :=
  Except.error (errorHandler e)

/-- An outbound HTTP call to the backend: method, full URL, optional JSON
body, and the explicitly set headers. -/
structure BackendRequest where
  method : String
  url : String
  body : Option Json
  headers : List (String × String)

/-- What the backend does with one request: a success body or an axios
failure. -/
inductive BackendResult where
  | ok (data : Json) : BackendResult
  | err (e : AxiosError) : BackendResult

/-- The backend as an oracle from requests to results. -/
def Backend : Type := BackendRequest → BackendResult

/-- vaporUrl from src/index.js line 129. -/
def vaporUrl : String := "http://localhost:8080/"

/-- The inbound client request context: its header map.  Node stores header
names lowercased; the kHeaders-symbol access in getAuthorizationHeader is
modelled as reading this map. -/
structure ClientReq where
  headers : List (String × String)

/-- getAuthorizationHeader from src/index.js lines 16-21: reads
`headers['authorization']` off the inbound request; `none` models the
JavaScript `undefined` when the header is absent. -/
def getAuthorizationHeader (req : ClientReq) : Option String :=
  (req.headers.find? (fun p => p.1 == "authorization")).map (fun p => p.2)

/-- JavaScript string concatenation with a possibly-undefined operand:
`" Bearer " + authorization` coerces an undefined token to the literal
string "undefined". -/
def jsStr : Option String → String
  | some s => s
  | none => "undefined"

/-- The request post_login issues (src/index.js lines 137-145): POST to
vaporUrl + 'login' with payload fields email and password, no auth header. -/
def loginRequest (email password : String) : BackendRequest :=
  ⟨"POST", vaporUrl ++ "login",
    some (Json.obj [("email", Json.str email), ("password", Json.str password)]), []⟩

/-- The request post_register issues (src/index.js lines 175-183). -/
def registerRequest (email name password : String) : BackendRequest :=
  ⟨"POST", vaporUrl ++ "register",
    some (Json.obj [("email", Json.str email), ("name", Json.str name),
      ("password", Json.str password)]), []⟩

/-- The request post_matching issues (src/index.js lines 146-159): the
Authorization header is built by the source as `" Bearer " + authorization`. -/
def matchingRequest (is_leave : Bool) (a : Option String) : BackendRequest :=
  ⟨"POST", vaporUrl ++ "matching", some (Json.obj [("is_leave", Json.bool is_leave)]),
    [("Authorization", " Bearer " ++ jsStr a)]⟩

/-- The request post_ready issues (src/index.js lines 160-174). -/
def readyRequest (room_id : String) (a : Option String) : BackendRequest :=
  ⟨"POST", vaporUrl ++ "ready", some (Json.obj [("room_id", Json.str room_id)]),
    [("Authorization", " Bearer " ++ jsStr a)]⟩

/-- The request post_result issues (src/index.js lines 184-197). -/
def resultRequest (room_id : String) (score : Int) (a : Option String) : BackendRequest :=
  ⟨"POST", vaporUrl ++ "result",
    some (Json.obj [("room_id", Json.str room_id), ("score", Json.num score)]),
    [("Authorization", " Bearer " ++ jsStr a)]⟩

/-- The request the check query issues (src/index.js lines 200-212,
identical in src/unnamed/part_000 lines 149-161). -/
def checkRequest (a : Option String) : BackendRequest :=
  ⟨"GET", vaporUrl ++ "check", none, [("Authorization", " Bearer " ++ jsStr a)]⟩

/-- The request get_rooms issues (src/index.js lines 213-221). -/
def roomsRequest : BackendRequest :=
  ⟨"GET", vaporUrl ++ "rooms", none, []⟩

/-- The request get_userID issues (src/index.js lines 222-234). -/
def userRequest (a : Option String) : BackendRequest :=
  ⟨"GET", vaporUrl ++ "user", none, [("Authorization", " Bearer " ++ jsStr a)]⟩

/-- Client-visible result of post_login / post_register:
`{ token: response.data.token }` (a missing field is `none`). -/
structure TokenResponse where
  token : Option Json

/-- Client-visible result of post_matching. -/
structure MatchStatus where
  user_count : Option Json
  is_matched : Option Json
  room_id : Option Json
  start_time : Option Json
  setuna_time : Option Json

/-- Client-visible result of post_ready: `{ difftime: response.data.difftime }`. -/
structure DiffTimeResponse where
  difftime : Option Json

/-- Client-visible result of post_result: `{ result: response.data.result }`. -/
structure ResultResponse where
  result : Option Json

/-- Client-visible result of the check query:
`{ success: 'True', user: response.data.user }`. -/
structure CheckResponse where
  success : String
  user : Option Json

/-- Client-visible result of get_userID: `{ user_id: response.data.user_id }`. -/
structure UserIDResponse where
  user_id : Option Json

/-- post_login resolver (src/index.js lines 137-145): one axios.post to
vaporUrl + 'login'; its catch block hands the failure to errorHandler, which
always throws.  The first component lists the backend calls issued. -/
def post_login (email password : String) (backend : Backend) :
    List BackendRequest × Except String TokenResponse :=
  match backend (loginRequest email password) with
  | BackendResult.ok d => ([loginRequest email password], Except.ok ⟨jsGetOpt d "token"⟩)
  | BackendResult.err e => ([loginRequest email password], errorHandlerThrow e)

/-- post_register resolver (src/index.js lines 175-183). -/
def post_register (email name password : String) (backend : Backend) :
    List BackendRequest × Except String TokenResponse :=
  match backend (registerRequest email name password) with
  | BackendResult.ok d =>
      ([registerRequest email name password], Except.ok ⟨jsGetOpt d "token"⟩)
  | BackendResult.err e => ([registerRequest email name password], errorHandlerThrow e)

/-- post_matching resolver (src/index.js lines 146-159): reads the inbound
authorization header (possibly undefined), then issues one axios.post to
vaporUrl + 'matching' carrying `" Bearer " + authorization`. -/
def post_matching (is_leave : Bool) (ctx : ClientReq) (backend : Backend) :
    List BackendRequest × Except String MatchStatus :=
  match backend (matchingRequest is_leave (getAuthorizationHeader ctx)) with
  | BackendResult.ok d =>
      ([matchingRequest is_leave (getAuthorizationHeader ctx)],
        Except.ok ⟨jsGetOpt d "user_count", jsGetOpt d "is_matched", jsGetOpt d "room_id",
          jsGetOpt d "start_time", jsGetOpt d "setuna_time"⟩)
  | BackendResult.err e =>
      ([matchingRequest is_leave (getAuthorizationHeader ctx)], errorHandlerThrow e)

/-- post_ready resolver (src/index.js lines 160-174). -/
def post_ready (room_id : String) (ctx : ClientReq) (backend : Backend) :
    List BackendRequest × Except String DiffTimeResponse :=
  match backend (readyRequest room_id (getAuthorizationHeader ctx)) with
  | BackendResult.ok d =>
      ([readyRequest room_id (getAuthorizationHeader ctx)], Except.ok ⟨jsGetOpt d "difftime"⟩)
  | BackendResult.err e =>
      ([readyRequest room_id (getAuthorizationHeader ctx)], errorHandlerThrow e)

/-- post_result resolver (src/index.js lines 184-197). -/
def post_result (room_id : String) (score : Int) (ctx : ClientReq) (backend : Backend) :
    List BackendRequest × Except String ResultResponse :=
  match backend (resultRequest room_id score (getAuthorizationHeader ctx)) with
  | BackendResult.ok d =>
      ([resultRequest room_id score (getAuthorizationHeader ctx)],
        Except.ok ⟨jsGetOpt d "result"⟩)
  | BackendResult.err e =>
      ([resultRequest room_id score (getAuthorizationHeader ctx)], errorHandlerThrow e)

/-- check query resolver (src/index.js lines 200-212): success returns the
literal 'True' plus `response.data.user`. -/
def check (ctx : ClientReq) (backend : Backend) :
    List BackendRequest × Except String CheckResponse :=
  match backend (checkRequest (getAuthorizationHeader ctx)) with
  | BackendResult.ok d =>
      ([checkRequest (getAuthorizationHeader ctx)], Except.ok ⟨"True", jsGetOpt d "user"⟩)
  | BackendResult.err e =>
      ([checkRequest (getAuthorizationHeader ctx)], errorHandlerThrow e)

/-- get_rooms query resolver (src/index.js lines 213-221): returns
`response.data` unchanged. -/
def get_rooms (backend : Backend) : List BackendRequest × Except String Json :=
  match backend roomsRequest with
  | BackendResult.ok d => ([roomsRequest], Except.ok d)
  | BackendResult.err e => ([roomsRequest], errorHandlerThrow e)

/-- get_userID query resolver (src/index.js lines 222-234). -/
def get_userID (ctx : ClientReq) (backend : Backend) :
    List BackendRequest × Except String UserIDResponse :=
  match backend (userRequest (getAuthorizationHeader ctx)) with
  | BackendResult.ok d =>
      ([userRequest (getAuthorizationHeader ctx)], Except.ok ⟨jsGetOpt d "user_id"⟩)
  | BackendResult.err e =>
      ([userRequest (getAuthorizationHeader ctx)], errorHandlerThrow e)

/-- Milliseconds per calendar day. -/
def msPerDay : Nat := 86400000

/-- Civil date (year, month, day-of-month) of a day count since the Unix
epoch, by the standard civil-from-days algorithm.  Time is modelled at a
fixed zero UTC offset; the host Date uses its local offset, which shifts
which instants share a calendar day but not the day-granularity shape. -/
def civilFromDay (day : Nat) : Nat × Nat × Nat :=
  let z := day + 719468
  let era := z / 146097
  let doe := z % 146097
  let yoe := (doe - doe / 1460 + doe / 36524 - doe / 146096) / 365
  let y := yoe + era * 400
  let doy := doe - (365 * yoe + yoe / 4 - yoe / 100)
  let mp := (5 * doy + 2) / 153
  let d := doy - (153 * mp + 2) / 5 + 1
  let m := if mp < 10 then mp + 3 else mp - 9
  (if m ≤ 2 then y + 1 else y, m, d)

/-- Weekday abbreviations indexed from Sunday. -/
def dayNames : List String := ["Sun", "Mon", "Tue", "Wed", "Thu", "Fri", "Sat"]

/-- Month abbreviations indexed from January. -/
def monthNames : List String :=
  ["Jan", "Feb", "Mar", "Apr", "May", "Jun", "Jul", "Aug", "Sep", "Oct", "Nov", "Dec"]

/-- Zero-padding to two digits, as Date.toDateString pads the day of month. -/
def pad2 (n : Nat) : String :=
  if n < 10 then "0" ++ toString n else toString n

/-- The day-granularity string "Www Mmm DD YYYY" of a day count since the
epoch.  The Unix epoch day was a Thursday, so the weekday index is
(day + 4) mod 7. -/
def dateStringOfDay (day : Nat) : String :=
  dayNames.getD ((day + 4) % 7) "" ++ " " ++ monthNames.getD ((civilFromDay day).2.1 - 1) ""
    ++ " " ++ pad2 (civilFromDay day).2.2 ++ " " ++ toString (civilFromDay day).1

/-- JavaScript `new Date().toDateString()` at a timestamp of t milliseconds
since the epoch: the date string of the timestamp's calendar day. -/
def toDateString (t : Nat) : String :=
  dateStringOfDay (t / msPerDay)

/-- A subscriber handle of the subscription channel. -/
abbrev SubId : Type := Nat

/-- An operationFinished event as published by mockLongLastingOperation:
`{ name, endDate: new Date().toDateString() }`. -/
structure OperationEvent where
  name : String
  endDate : String

/-- The broker's state: the current subscriber set, the pending timers as
(fire time, operation name) pairs, and the delivery log of (subscriber,
event) pairs, in delivery order. -/
structure BrokerState where
  subscribers : List SubId
  pending : List (Nat × String)
  log : List (SubId × OperationEvent)

/-- Modelled from the spec: `pubSub.publish` comes from the
graphql-subscriptions library, which is not part of this repository; the
spec describes it as a broadcast to every member of the current Subscriber
Set, with no replay buffer and no queueing for absent subscribers.  The
event is appended to the delivery log once per current subscriber. -/
def publish (st : BrokerState) (ev : OperationEvent) : BrokerState :=
  { st with log := st.log ++ st.subscribers.map (fun s => (s, ev)) }

/-- Modelled from the spec: subscribing (pubSub.asyncIterator) adds a handle
to the Subscriber Set and delivers nothing by itself. -/
def subscribeStep (st : BrokerState) (s : SubId) : BrokerState :=
  { st with subscribers := st.subscribers ++ [s] }

/-- The fixed setTimeout delay of mockLongLastingOperation
(src/index.js line 126): 1000 milliseconds. -/
def operationDelay : Nat := 1000

/-- mockLongLastingOperation (src/index.js lines 123-127, identical in
src/unnamed/part_000 lines 101-105): called at time `now`, it registers a
one-shot timer due at `now + operationDelay` for the given name; nothing is
published yet. -/
def mockLongLastingOperation (name : String) (now : Nat) (st : BrokerState) : BrokerState :=
  { st with pending := st.pending ++ [(now + operationDelay, name)] }

/-- The expiry of one pending timer at time `fireTime`: the setTimeout
callback of mockLongLastingOperation publishes
`{ operationFinished: { name, endDate: new Date().toDateString() } }`,
with the date taken at the publish moment, and the one-shot timer is
consumed. -/
def fireTimer (st : BrokerState) (fireTime : Nat) (name : String) : BrokerState :=
  publish { st with pending := st.pending.erase (fireTime, name) }
    { name := name, endDate := toDateString fireTime }

/-- scheduleOperation resolver (src/index.js lines 133-136): kicks off
mockLongLastingOperation and synchronously returns the acknowledgement
template string, before any timer fires. -/
def scheduleOperation (name : String) (now : Nat) (st : BrokerState) :
    String × BrokerState :=
  ("Operation: " ++ name ++ " scheduled!", mockLongLastingOperation name now st)

/-- A backend oracle that rejects every request with the failure body
`{ reason: "INVALID_CREDENTIALS" }`, for concrete witnesses. -/
def invalidCredentialsBackend : Backend :=
  fun _ => BackendResult.err ⟨some ⟨Json.obj [("reason", Json.str "INVALID_CREDENTIALS")]⟩⟩

/-- A backend oracle that answers every request with a fixed room list, for
concrete witnesses. -/
def roomListBackend : Backend :=
  fun _ => BackendResult.ok (Json.arr [Json.str "room1", Json.str "room2"])

/-- C2: the spec claims the error normalizer falls back from `reason` to a
structured `message` field and then to a generic "request failed" message.
Counterexample: on the failure body having only a `message` field ("boom"),
errorHandler produces the message "undefined" — neither "boom" nor
"request failed". -/
theorem errorHandler_no_message_fallback :
    errorHandler ⟨some ⟨Json.obj [("message", Json.str "boom")]⟩⟩ = "undefined" ∧
    ("undefined" : String) ≠ "boom" ∧ ("undefined" : String) ≠ "request failed" :=
  ⟨rfl, by decide, by decide⟩

/-- C2 (amended): the client-visible message is the template rendering of
the failure body's `reason` field alone; when `reason` is absent the message
is the literal string "undefined"; there is no `message` fallback and no
generic "request failed" message. -/
theorem errorHandler_reason_only (e : AxiosError) :
    (∀ s, reasonOf e = some (Json.str s) → errorHandler e = s) ∧
    (reasonOf e = none → errorHandler e = "undefined") := by
  constructor
  · intro s h
    simp [errorHandler, h, jsTemplate, jsToString]
  · intro h
    simp [errorHandler, h, jsTemplate]

/-- Witness for C2 (amended): on the failure body
`{ reason: "INVALID_CREDENTIALS" }` the message is "INVALID_CREDENTIALS",
and on a transport failure with no response it is "undefined". -/
theorem errorHandler_reason_only_witness :
    errorHandler ⟨some ⟨Json.obj [("reason", Json.str "INVALID_CREDENTIALS")]⟩⟩ =
      "INVALID_CREDENTIALS" ∧
    errorHandler ⟨none⟩ = "undefined" :=
  ⟨(errorHandler_reason_only _).1 "INVALID_CREDENTIALS" rfl,
    (errorHandler_reason_only ⟨none⟩).2 rfl⟩

/-- C4: if the backend answers post_login's call with a failure whose body
is `{ reason: "INVALID_CREDENTIALS" }`, post_login fails with a client
error whose message is exactly "INVALID_CREDENTIALS". -/
theorem post_login_invalid_credentials (email password : String) (backend : Backend)
    (h : backend (loginRequest email password) =
      BackendResult.err ⟨some ⟨Json.obj [("reason", Json.str "INVALID_CREDENTIALS")]⟩⟩) :
    (post_login email password backend).2 = Except.error "INVALID_CREDENTIALS" := by
  unfold post_login
  rw [h]
  rfl

/-- Witness for C4 at a concrete invocation against the rejecting backend. -/
theorem post_login_invalid_credentials_witness :
    (post_login "a@b.c" "pw" invalidCredentialsBackend).2 =
      Except.error "INVALID_CREDENTIALS" :=
  post_login_invalid_credentials "a@b.c" "pw" invalidCredentialsBackend rfl

/-- C8: whenever the backend answers get_rooms's call successfully,
get_rooms returns the backend's response body unmodified. -/
theorem get_rooms_identity (backend : Backend) (d : Json)
    (h : backend roomsRequest = BackendResult.ok d) :
    (get_rooms backend).2 = Except.ok d := by
  unfold get_rooms
  rw [h]

/-- Witness for C8 on a concrete two-room list. -/
theorem get_rooms_identity_witness :
    (get_rooms roomListBackend).2 =
      Except.ok (Json.arr [Json.str "room1", Json.str "room2"]) :=
  get_rooms_identity roomListBackend _ rfl

/-- C9: errorHandler never returns normally — every call ends in an error
result, never a success value — and when the failure carries no structured
`reason` (e.g. a transport-level error with no response), the thrown error's
message is the literal string "undefined". -/
theorem errorHandler_throws_undefined (e : AxiosError) :
    (∀ (α : Type) (v : α), (errorHandlerThrow e : Except String α) ≠ Except.ok v) ∧
    (reasonOf e = none → errorHandler e = "undefined") ∧
    errorHandler ⟨none⟩ = "undefined" := by
  refine ⟨fun α v hcontra => ?_, fun h => ?_, rfl⟩
  · exact Except.noConfusion hcontra
  · simp [errorHandler, h, jsTemplate]

/-- Witness for C9 at the transport-level failure carrying no response. -/
theorem errorHandler_throws_undefined_witness :
    (errorHandlerThrow ⟨none⟩ : Except String Unit) ≠ Except.ok () ∧
    errorHandler ⟨none⟩ = "undefined" :=
  ⟨(errorHandler_throws_undefined ⟨none⟩).1 Unit (),
    (errorHandler_throws_undefined ⟨none⟩).2.1 rfl⟩

/-- C1: the spec claims every auth-required operation invoked with no
credential yields AuthMissingError and issues zero backend calls.  The code
has no such check: with an inbound request carrying no authorization header,
each of check, get_userID, post_matching, post_ready and post_result still
issues exactly one backend call, whose Authorization header is the string
" Bearer undefined". -/
theorem missing_token_still_reaches_backend (backend : Backend) (is_leave : Bool)
    (room_id : String) (score : Int) :
    (check ⟨[]⟩ backend).1 =
      [⟨"GET", vaporUrl ++ "check", none, [("Authorization", " Bearer undefined")]⟩] ∧
    (get_userID ⟨[]⟩ backend).1 =
      [⟨"GET", vaporUrl ++ "user", none, [("Authorization", " Bearer undefined")]⟩] ∧
    (post_matching is_leave ⟨[]⟩ backend).1 =
      [⟨"POST", vaporUrl ++ "matching", some (Json.obj [("is_leave", Json.bool is_leave)]),
        [("Authorization", " Bearer undefined")]⟩] ∧
    (post_ready room_id ⟨[]⟩ backend).1 =
      [⟨"POST", vaporUrl ++ "ready", some (Json.obj [("room_id", Json.str room_id)]),
        [("Authorization", " Bearer undefined")]⟩] ∧
    (post_result room_id score ⟨[]⟩ backend).1 =
      [⟨"POST", vaporUrl ++ "result",
        some (Json.obj [("room_id", Json.str room_id), ("score", Json.num score)]),
        [("Authorization", " Bearer undefined")]⟩] := by
  refine ⟨?_, ?_, ?_, ?_, ?_⟩
  · unfold check
    cases backend (checkRequest (getAuthorizationHeader ⟨[]⟩)) <;> rfl
  · unfold get_userID
    cases backend (userRequest (getAuthorizationHeader ⟨[]⟩)) <;> rfl
  · unfold post_matching
    cases backend (matchingRequest is_leave (getAuthorizationHeader ⟨[]⟩)) <;> rfl
  · unfold post_ready
    cases backend (readyRequest room_id (getAuthorizationHeader ⟨[]⟩)) <;> rfl
  · unfold post_result
    cases backend (resultRequest room_id score (getAuthorizationHeader ⟨[]⟩)) <;> rfl

/-- C3: the spec claims the outbound authorization header is exactly
"Bearer " followed by the token, with no leading space.  The code builds it
as `" Bearer " + authorization`: with inbound token t the outbound header
value is " Bearer " ++ t, which carries a leading space and differs from
"Bearer " ++ t. -/
theorem auth_header_has_leading_space (backend : Backend) (is_leave : Bool) (t : String) :
    (post_matching is_leave ⟨[("authorization", t)]⟩ backend).1 =
      [⟨"POST", vaporUrl ++ "matching", some (Json.obj [("is_leave", Json.bool is_leave)]),
        [("Authorization", " Bearer " ++ t)]⟩] ∧
    (check ⟨[("authorization", t)]⟩ backend).1 =
      [⟨"GET", vaporUrl ++ "check", none, [("Authorization", " Bearer " ++ t)]⟩] ∧
    (" Bearer tok" : String) ≠ "Bearer tok" := by
  refine ⟨?_, ?_, by decide⟩
  · unfold post_matching
    cases backend (matchingRequest is_leave (getAuthorizationHeader ⟨[("authorization", t)]⟩))
      <;> rfl
  · unfold check
    cases backend (checkRequest (getAuthorizationHeader ⟨[("authorization", t)]⟩)) <;> rfl

/-- C6: every invocation of a backend-backed operation issues exactly one
outbound backend call (no retry), with the method, path and payload of the
operation table: post_login POSTs to /login with email and password,
post_register POSTs to /register with email, name and password,
post_matching POSTs to /matching with is_leave, post_ready POSTs to /ready
with room_id, post_result POSTs to /result with room_id and score, check
GETs /check, get_userID GETs /user and get_rooms GETs /rooms. -/
theorem one_backend_call_per_invocation (email name password room_id : String)
    (score : Int) (is_leave : Bool) (ctx : ClientReq) (backend : Backend) :
    (post_login email password backend).1 =
      [⟨"POST", vaporUrl ++ "login",
        some (Json.obj [("email", Json.str email), ("password", Json.str password)]), []⟩] ∧
    (post_register email name password backend).1 =
      [⟨"POST", vaporUrl ++ "register",
        some (Json.obj [("email", Json.str email), ("name", Json.str name),
          ("password", Json.str password)]), []⟩] ∧
    (post_matching is_leave ctx backend).1 =
      [⟨"POST", vaporUrl ++ "matching", some (Json.obj [("is_leave", Json.bool is_leave)]),
        [("Authorization", " Bearer " ++ jsStr (getAuthorizationHeader ctx))]⟩] ∧
    (post_ready room_id ctx backend).1 =
      [⟨"POST", vaporUrl ++ "ready", some (Json.obj [("room_id", Json.str room_id)]),
        [("Authorization", " Bearer " ++ jsStr (getAuthorizationHeader ctx))]⟩] ∧
    (post_result room_id score ctx backend).1 =
      [⟨"POST", vaporUrl ++ "result",
        some (Json.obj [("room_id", Json.str room_id), ("score", Json.num score)]),
        [("Authorization", " Bearer " ++ jsStr (getAuthorizationHeader ctx))]⟩] ∧
    (check ctx backend).1 =
      [⟨"GET", vaporUrl ++ "check", none,
        [("Authorization", " Bearer " ++ jsStr (getAuthorizationHeader ctx))]⟩] ∧
    (get_userID ctx backend).1 =
      [⟨"GET", vaporUrl ++ "user", none,
        [("Authorization", " Bearer " ++ jsStr (getAuthorizationHeader ctx))]⟩] ∧
    (get_rooms backend).1 = [⟨"GET", vaporUrl ++ "rooms", none, []⟩] := by
  refine ⟨?_, ?_, ?_, ?_, ?_, ?_, ?_, ?_⟩
  · unfold post_login
    cases backend (loginRequest email password) <;> rfl
  · unfold post_register
    cases backend (registerRequest email name password) <;> rfl
  · unfold post_matching
    cases backend (matchingRequest is_leave (getAuthorizationHeader ctx)) <;> rfl
  · unfold post_ready
    cases backend (readyRequest room_id (getAuthorizationHeader ctx)) <;> rfl
  · unfold post_result
    cases backend (resultRequest room_id score (getAuthorizationHeader ctx)) <;> rfl
  · unfold check
    cases backend (checkRequest (getAuthorizationHeader ctx)) <;> rfl
  · unfold get_userID
    cases backend (userRequest (getAuthorizationHeader ctx)) <;> rfl
  · unfold get_rooms
    cases backend roomsRequest <;> rfl

/-- C7: each invocation is all-or-nothing: when the backend call succeeds
the invocation returns exactly the mapped response, and when it fails the
invocation propagates the normalized error (the errorHandler message) and
returns no partial or fabricated success value. -/
theorem invocation_all_or_nothing (email name password room_id : String)
    (score : Int) (is_leave : Bool) (ctx : ClientReq) (backend : Backend) :
    ((∃ d, backend (loginRequest email password) = BackendResult.ok d ∧
        (post_login email password backend).2 = Except.ok ⟨jsGetOpt d "token"⟩) ∨
      (∃ e, backend (loginRequest email password) = BackendResult.err e ∧
        (post_login email password backend).2 = Except.error (errorHandler e))) ∧
    ((∃ d, backend (registerRequest email name password) = BackendResult.ok d ∧
        (post_register email name password backend).2 = Except.ok ⟨jsGetOpt d "token"⟩) ∨
      (∃ e, backend (registerRequest email name password) = BackendResult.err e ∧
        (post_register email name password backend).2 = Except.error (errorHandler e))) ∧
    ((∃ d, backend (matchingRequest is_leave (getAuthorizationHeader ctx)) =
          BackendResult.ok d ∧
        (post_matching is_leave ctx backend).2 =
          Except.ok ⟨jsGetOpt d "user_count", jsGetOpt d "is_matched", jsGetOpt d "room_id",
            jsGetOpt d "start_time", jsGetOpt d "setuna_time"⟩) ∨
      (∃ e, backend (matchingRequest is_leave (getAuthorizationHeader ctx)) =
          BackendResult.err e ∧
        (post_matching is_leave ctx backend).2 = Except.error (errorHandler e))) ∧
    ((∃ d, backend (readyRequest room_id (getAuthorizationHeader ctx)) =
          BackendResult.ok d ∧
        (post_ready room_id ctx backend).2 = Except.ok ⟨jsGetOpt d "difftime"⟩) ∨
      (∃ e, backend (readyRequest room_id (getAuthorizationHeader ctx)) =
          BackendResult.err e ∧
        (post_ready room_id ctx backend).2 = Except.error (errorHandler e))) ∧
    ((∃ d, backend (resultRequest room_id score (getAuthorizationHeader ctx)) =
          BackendResult.ok d ∧
        (post_result room_id score ctx backend).2 = Except.ok ⟨jsGetOpt d "result"⟩) ∨
      (∃ e, backend (resultRequest room_id score (getAuthorizationHeader ctx)) =
          BackendResult.err e ∧
        (post_result room_id score ctx backend).2 = Except.error (errorHandler e))) ∧
    ((∃ d, backend (checkRequest (getAuthorizationHeader ctx)) = BackendResult.ok d ∧
        (check ctx backend).2 = Except.ok ⟨"True", jsGetOpt d "user"⟩) ∨
      (∃ e, backend (checkRequest (getAuthorizationHeader ctx)) = BackendResult.err e ∧
        (check ctx backend).2 = Except.error (errorHandler e))) ∧
    ((∃ d, backend (userRequest (getAuthorizationHeader ctx)) = BackendResult.ok d ∧
        (get_userID ctx backend).2 = Except.ok ⟨jsGetOpt d "user_id"⟩) ∨
      (∃ e, backend (userRequest (getAuthorizationHeader ctx)) = BackendResult.err e ∧
        (get_userID ctx backend).2 = Except.error (errorHandler e))) ∧
    ((∃ d, backend roomsRequest = BackendResult.ok d ∧
        (get_rooms backend).2 = Except.ok d) ∨
      (∃ e, backend roomsRequest = BackendResult.err e ∧
        (get_rooms backend).2 = Except.error (errorHandler e))) := by
  refine ⟨?_, ?_, ?_, ?_, ?_, ?_, ?_, ?_⟩
  · cases h : backend (loginRequest email password) with
    | ok d => exact Or.inl ⟨d, rfl, by unfold post_login; rw [h]⟩
    | err e => exact Or.inr ⟨e, rfl, by unfold post_login; rw [h]; rfl⟩
  · cases h : backend (registerRequest email name password) with
    | ok d => exact Or.inl ⟨d, rfl, by unfold post_register; rw [h]⟩
    | err e => exact Or.inr ⟨e, rfl, by unfold post_register; rw [h]; rfl⟩
  · cases h : backend (matchingRequest is_leave (getAuthorizationHeader ctx)) with
    | ok d => exact Or.inl ⟨d, rfl, by unfold post_matching; rw [h]⟩
    | err e => exact Or.inr ⟨e, rfl, by unfold post_matching; rw [h]; rfl⟩
  · cases h : backend (readyRequest room_id (getAuthorizationHeader ctx)) with
    | ok d => exact Or.inl ⟨d, rfl, by unfold post_ready; rw [h]⟩
    | err e => exact Or.inr ⟨e, rfl, by unfold post_ready; rw [h]; rfl⟩
  · cases h : backend (resultRequest room_id score (getAuthorizationHeader ctx)) with
    | ok d => exact Or.inl ⟨d, rfl, by unfold post_result; rw [h]⟩
    | err e => exact Or.inr ⟨e, rfl, by unfold post_result; rw [h]; rfl⟩
  · cases h : backend (checkRequest (getAuthorizationHeader ctx)) with
    | ok d => exact Or.inl ⟨d, rfl, by unfold check; rw [h]⟩
    | err e => exact Or.inr ⟨e, rfl, by unfold check; rw [h]; rfl⟩
  · cases h : backend (userRequest (getAuthorizationHeader ctx)) with
    | ok d => exact Or.inl ⟨d, rfl, by unfold get_userID; rw [h]⟩
    | err e => exact Or.inr ⟨e, rfl, by unfold get_userID; rw [h]; rfl⟩
  · cases h : backend roomsRequest with
    | ok d => exact Or.inl ⟨d, rfl, by unfold get_rooms; rw [h]⟩
    | err e => exact Or.inr ⟨e, rfl, by unfold get_rooms; rw [h]; rfl⟩

/-- C5: scheduleOperation returns, synchronously and before the delay
elapses, an acknowledgement string containing the name; it publishes
nothing at schedule time and registers exactly one timer due after the
fixed delay; when that timer fires, exactly one operationFinished event
with that name is broadcast to precisely the subscribers present at fire
time (one delivery each), the one-shot timer is consumed, and a subscriber
joining strictly after fire time receives nothing from it. -/
theorem scheduleOperation_broadcast (name : String) (now : Nat) (st : BrokerState) :
    (∃ pre post, (scheduleOperation name now st).1 = pre ++ name ++ post) ∧
    (scheduleOperation name now st).2.log = st.log ∧
    (scheduleOperation name now st).2.subscribers = st.subscribers ∧
    (scheduleOperation name now st).2.pending =
      st.pending ++ [(now + operationDelay, name)] ∧
    now < now + operationDelay ∧
    (∀ tf,
      (fireTimer (scheduleOperation name now st).2 tf name).log =
        st.log ++ st.subscribers.map (fun s => (s, ⟨name, toDateString tf⟩)) ∧
      (fireTimer (scheduleOperation name now st).2 tf name).pending =
        ((scheduleOperation name now st).2.pending).erase (tf, name) ∧
      ∀ s2, (subscribeStep (fireTimer (scheduleOperation name now st).2 tf name) s2).log =
        (fireTimer (scheduleOperation name now st).2 tf name).log) := by
  have hd : 0 < operationDelay := by decide
  exact ⟨⟨"Operation: ", " scheduled!", rfl⟩, rfl, rfl, rfl, by omega,
    fun tf => ⟨rfl, rfl, fun s2 => rfl⟩⟩

/-- C10: the operationFinished event a firing timer publishes carries as its
endDate the day-granularity date string of the publish moment
(Date.toDateString of the fire time), and toDateString depends only on the
calendar day, so two operations completing on the same calendar day carry
equal endDate values. -/
theorem endDate_day_granularity (st : BrokerState) (tf : Nat) (name : String) :
    (fireTimer st tf name).log =
      st.log ++ st.subscribers.map (fun s => (s, ⟨name, toDateString tf⟩)) ∧
    (∀ s ev, (s, ev) ∈ (fireTimer st tf name).log →
      (s, ev) ∈ st.log ∨ ev.endDate = toDateString tf) ∧
    (∀ t1 t2, t1 / msPerDay = t2 / msPerDay → toDateString t1 = toDateString t2) := by
  refine ⟨rfl, ?_, ?_⟩
  · intro s ev h
    rcases List.mem_append.mp h with hl | hr
    · exact Or.inl hl
    · rcases List.mem_map.mp hr with ⟨a, -, hev⟩
      cases hev
      exact Or.inr rfl
  · intro t1 t2 h
    unfold toDateString
    rw [h]

/-- Witness for C10: firing at time 0 delivers an event whose endDate is
toDateString 0, and times 0 and 5000 fall on the same calendar day, so
their date strings coincide. -/
theorem endDate_day_granularity_witness :
    toDateString 5000 = toDateString 0 ∧
    ((1, (⟨"op", toDateString 0⟩ : OperationEvent)) ∈ ([] : List (SubId × OperationEvent)) ∨
      (⟨"op", toDateString 0⟩ : OperationEvent).endDate = toDateString 0) :=
  ⟨(endDate_day_granularity ⟨[1], [(0, "op")], []⟩ 0 "op").2.2 5000 0 rfl,
    (endDate_day_granularity ⟨[1], [(0, "op")], []⟩ 0 "op").2.1 1 ⟨"op", toDateString 0⟩
      (by simp [fireTimer, publish])⟩

end SetsunaBff
